import Mathlib

/-!
Verification of the SkyComic-hash/Bots repository material: a MongoDB
bootstrap script (`mongo-init.js`) together with the container build file
embedded alongside it, plus the spec's inferred ingestion-and-cache core
(Dedup Gate, Store Adapter, Audit Recorder), which lives in `main.py` and
is not part of the supplied sources.

The bootstrap script is shallowly embedded as a list of shell statements
interpreted over a deployment state (a map from database names to
database contents plus the current database handle).  String values in
the script may in principle be literals or environment lookups; the
actual script uses only literals.
-/

namespace Bots

/-- A MongoDB role grant: role name scoped to a database. -/
structure Role where
  role : String
  db : String
deriving DecidableEq, Repr

/-- A MongoDB user as created by `db.createUser`. -/
structure User where
  user : String
  pwd : String
  roles : List Role
deriving DecidableEq, Repr

/-- A string-valued expression in the init script: either a literal or a
reference to an environment variable.  `mongo-init.js` uses only
literals (its comment about `.env` is a comment, not code). -/
inductive StrExpr where
  | lit (s : String)
  | envRef (name : String)
deriving DecidableEq, Repr

/-- Evaluate a string expression against an environment (missing
variables evaluate to the empty string). -/
def StrExpr.eval (env : String → Option String) : StrExpr → String
  | .lit s => s
  | .envRef n => (env n).getD ""

/-- The kind of a field inside an index specification.  The script only
ever uses `"text"` index members. -/
inductive IndexKind where
  | text
deriving DecidableEq, Repr

/-- A (user-created) index on a collection: its key document and whether
it carries a uniqueness constraint.  `createIndex` called without an
options document creates a non-unique index (MongoDB default). -/
structure IndexSpec where
  keys : List (String × IndexKind)
  unique : Bool
deriving DecidableEq, Repr

/-- A collection: its name, the user-created indexes on it (the default
`_id` index is implicit and not recorded here), and an optional schema
validator.  `createCollection` called with only a name attaches no
validator. -/
structure Collection where
  name : String
  indexes : List IndexSpec
  validator : Option String
deriving DecidableEq, Repr

/-- The contents of one database: its users and its collections. -/
structure Database where
  users : List User
  collections : List Collection
deriving DecidableEq, Repr

/-- A database that has never been written to. -/
def emptyDatabase : Database := ⟨[], []⟩

/-- The state of the mongo shell while the init script runs: the
deployment (databases are materialized lazily, so the map is total with
`emptyDatabase` default), the current database handle `db`, and the
trace of users created so far. -/
structure ShellState where
  dbs : String → Database
  current : String
  createdUsers : List User

/-- The shell state at script start: no data anywhere, `db` bound to the
database the shell was started against. -/
def initialShell (d : String) : ShellState :=
  ⟨fun _ => emptyDatabase, d, []⟩

/-- The statements of `mongo-init.js`:
`db.createUser`, `db = db.getSiblingDB(...)`, `db.createCollection`,
and `db.<coll>.createIndex` (key document only, no options). -/
inductive Stmt where
  | createUser (user pwd : StrExpr) (roles : List Role)
  | useSiblingDB (name : String)
  | createCollection (name : String)
  | createIndex (coll : String) (keys : List (String × IndexKind))
deriving DecidableEq, Repr

/-- `true` exactly on `createUser` statements. -/
def Stmt.isCreateUser : Stmt → Bool
  | .createUser _ _ _ => true
  | _ => false

/-- `true` exactly on `useSiblingDB` statements. -/
def Stmt.isUseSiblingDB : Stmt → Bool
  | .useSiblingDB _ => true
  | _ => false

/-- Update one database of the deployment in place. -/
def updDb (f : String → Database) (k : String) (g : Database → Database) :
    String → Database :=
  fun n => if n = k then g (f n) else f n

/-- `createIndex` semantics on a database: append the (non-unique, per
the optionless call) index to the named collection, materializing the
collection first if it does not exist, as MongoDB does. -/
def addIndex (c : String) (keys : List (String × IndexKind)) (d : Database) :
    Database :=
  if d.collections.any (fun col => col.name = c) then
    { d with collections := d.collections.map (fun col =>
        if col.name = c then
          { col with indexes := col.indexes ++ [⟨keys, false⟩] }
        else col) }
  else
    { d with collections := d.collections ++ [⟨c, [⟨keys, false⟩], none⟩] }

/-- One step of the script interpreter. -/
def execStmt (env : String → Option String) (s : ShellState) : Stmt → ShellState
  | .createUser u p rs =>
      let newUser : User := ⟨u.eval env, p.eval env, rs⟩
      { s with
        dbs := updDb s.dbs s.current (fun d => { d with users := d.users ++ [newUser] }),
        createdUsers := s.createdUsers ++ [newUser] }
  | .useSiblingDB n => { s with current := n }
  | .createCollection n =>
      { s with
        dbs := updDb s.dbs s.current (fun d =>
          { d with collections := d.collections ++ [⟨n, [], none⟩] }) }
  | .createIndex c keys =>
      { s with dbs := updDb s.dbs s.current (addIndex c keys) }

/-- Run a list of statements from a given shell state. -/
def runStmts (env : String → Option String) (s : ShellState) (prog : List Stmt) :
    ShellState :=
  prog.foldl (execStmt env) s

/-- The statements of `src/mongo-init.js`, in source order. -/
def mongoInitScript : List Stmt :=
  [ .createUser (.lit "admin") (.lit "password")
      [⟨"readWrite", "telegram_cache"⟩, ⟨"dbAdmin", "telegram_cache"⟩],
    .useSiblingDB "telegram_cache",
    .createCollection "messages",
    .createCollection "events",
    .createCollection "audit_log",
    .createIndex "messages" [("text", .text), ("caption", .text)] ]

/-- Run `mongo-init.js` against an environment and an initial current
database. -/
def runScript (env : String → Option String) (initialDb : String) : ShellState :=
  runStmts env (initialShell initialDb) mongoInitScript

/-- The user record `db.createUser` builds from the script's literals. -/
def adminUser : User :=
  ⟨"admin", "password", [⟨"readWrite", "telegram_cache"⟩, ⟨"dbAdmin", "telegram_cache"⟩]⟩

/-- The one index the script creates: a combined text index on the
fields `text` and `caption`, with no uniqueness constraint. -/
def textIndex : IndexSpec :=
  ⟨[("text", .text), ("caption", .text)], false⟩

/-- The collections of `telegram_cache` after the script has run. -/
def bootCollections : List Collection :=
  [⟨"messages", [textIndex], none⟩, ⟨"events", [], none⟩, ⟨"audit_log", [], none⟩]

/-- The users of database `n` in shell state `s`. -/
def usersOf (s : ShellState) (n : String) : List User := (s.dbs n).users

/-- The collections of database `n` in shell state `s`. -/
def collectionsOf (s : ShellState) (n : String) : List Collection :=
  (s.dbs n).collections

/-- The names of the collections of database `n` in shell state `s`. -/
def collectionNamesOf (s : ShellState) (n : String) : List String :=
  (collectionsOf s n).map Collection.name

/-! The container build file embedded in the supplied source, as a list
of build instructions. -/

/-- One instruction of the container build file. -/
inductive DockerInstr where
  | fromImage (image : String)
  | workdir (path : String)
  | runCmd (cmd : String)
  | copyFiles (src dst : String)
  | envVar (name value : String)
  | entryCmd (args : List String)
deriving DecidableEq, Repr

/-- The arguments of an entry-point `CMD` instruction, if this is one. -/
def DockerInstr.cmdArgs : DockerInstr → Option (List String)
  | .entryCmd args => some args
  | _ => none

/-- The instructions of the build file embedded in the source, in
order. -/
def dockerfile : List DockerInstr :=
  [ .fromImage "python:3.11-slim",
    .workdir "/app",
    .runCmd "apt-get update && apt-get install -y gcc && rm -rf /var/lib/apt/lists/*",
    .copyFiles "requirements.txt" ".",
    .runCmd "pip install --no-cache-dir -r requirements.txt",
    .copyFiles "." ".",
    .runCmd "mkdir -p logs data",
    .envVar "PYTHONUNBUFFERED" "1",
    .envVar "PYTHONPATH" "/app",
    .entryCmd ["python", "main.py"] ]

/-! The ingestion-and-cache core.  The application logic (`main.py`,
referenced by the build file's entry point) is not part of the supplied
sources, so the components the claims need — the Dedup/Idempotency Gate,
the Store Adapter and the Audit Recorder — are modelled from the spec. -/

/-- Modelled from the spec: the Message record shape of §3 (`main.py`
and the Normalizer/Store Adapter that build it are missing from the
sources).  `tombstoned` records logical deletion. -/
structure Message where
  id : String
  chatId : Int
  senderId : Int
  text : Option String
  caption : Option String
  attachments : List String
  timestamp : Nat
  editCount : Nat
  tombstoned : Bool
deriving DecidableEq, Repr

/-- Modelled from the spec: the operation enum of an AuditLogEntry. -/
inductive AuditOperation where
  | create
  | edit
  | tombstone
deriving DecidableEq, Repr

/-- Modelled from the spec: an AuditLogEntry of §3 (the Audit Recorder
is missing from the sources). -/
structure AuditLogEntry where
  operation : AuditOperation
  actor : String
  targetCollection : String
  targetId : String
deriving DecidableEq, Repr

/-- Modelled from the spec: the store's state as the core sees it — the
`messages` collection and the append-only `audit_log`. -/
structure StoreState where
  messages : List Message
  audit : List AuditLogEntry
deriving DecidableEq, Repr

/-- The store before any event has been ingested. -/
def emptyStore : StoreState := ⟨[], []⟩

/-- Modelled from the spec: the Dedup Gate's verdict — `accept`, or
`reject` with the identifier already stored. -/
inductive SubmitResult where
  | accept
  | reject (existingId : String)
deriving DecidableEq, Repr

/-- `true` iff some stored Message carries identifier `i`. -/
def StoreState.hasId (st : StoreState) (i : String) : Bool :=
  st.messages.any (fun m => m.id = i)

/-- `true` iff some stored, non-tombstoned Message carries `i`. -/
def StoreState.hasLive (st : StoreState) (i : String) : Bool :=
  st.messages.any (fun m => m.id = i && !m.tombstoned)

/-- How many stored Messages carry identifier `i`. -/
def StoreState.countId (st : StoreState) (i : String) : Nat :=
  st.messages.countP (fun m => m.id = i)

/-- Modelled from the spec: the Dedup Gate + Store Adapter + Audit
Recorder submission path (`main.py` is missing from the sources).  The
whole insert-if-absent together with its audit write is one atomic step
of the trace semantics, per the spec's storage-layer unique constraint
and atomic-unit requirements: an unseen identifier is accepted, stored
and audited in the same step; a seen identifier is rejected with the
state untouched. -/
def submit (actor : String) (st : StoreState) (m : Message) :
    SubmitResult × StoreState :=
  if st.hasId m.id then
    (.reject m.id, st)
  else
    (.accept,
      ⟨st.messages ++ [m],
       st.audit ++ [⟨.create, actor, "messages", m.id⟩]⟩)

/-- Modelled from the spec: a mutating operation on the store — a
submission of a new Message, an edit, or a logical delete. -/
inductive Op where
  | submitOp (actor : String) (m : Message)
  | editOp (actor : String) (id : String) (newText : Option String)
  | deleteOp (actor : String) (id : String)
deriving DecidableEq, Repr

/-- The edit of one Message: new text, edit counter bumped. -/
def applyEdit (i : String) (t : Option String) (m : Message) : Message :=
  if m.id = i then { m with text := t, editCount := m.editCount + 1 } else m

/-- The logical delete of one Message: tombstoned, retained. -/
def applyDelete (i : String) (m : Message) : Message :=
  if m.id = i then { m with tombstoned := true } else m

/-- Modelled from the spec: one atomic mutating step of the core
(`main.py` is missing from the sources).  Returns whether the mutation
was accepted together with the next state; per the spec's atomic-unit
contract an accepted mutation and its single audit entry land together,
and a rejected mutation changes nothing.  Edits and deletes of an
absent or tombstoned Message are rejected (ConflictError). -/
def applyOp (st : StoreState) : Op → Bool × StoreState
  | .submitOp actor m =>
      match submit actor st m with
      | (.accept, st') => (true, st')
      | (.reject _, st') => (false, st')
  | .editOp actor i t =>
      if st.hasLive i then
        (true,
          ⟨st.messages.map (applyEdit i t),
           st.audit ++ [⟨.edit, actor, "messages", i⟩]⟩)
      else (false, st)
  | .deleteOp actor i =>
      if st.hasLive i then
        (true,
          ⟨st.messages.map (applyDelete i),
           st.audit ++ [⟨.tombstone, actor, "messages", i⟩]⟩)
      else (false, st)

/-- Run a sequence of mutating operations: one interleaving of the
concurrent ingestion paths, each step atomic at the store. -/
def runOps (st : StoreState) (ops : List Op) : StoreState :=
  ops.foldl (fun s o => (applyOp s o).2) st

/-- How many operations of the sequence are accepted when run from
`st`. -/
def acceptedCount (st : StoreState) : List Op → Nat
  | [] => 0
  | o :: rest =>
      (if (applyOp st o).1 then 1 else 0) + acceptedCount (applyOp st o).2 rest

/-- A concrete Message used to exercise the core model (the spec's §8
scenario `{id: "e1", chat_id: 42, text: "hello world"}`). -/
def e1Message : Message :=
  ⟨"e1", 42, 7, some "hello world", none, [], 0, 0, false⟩

/-! Helper lemmas about the bootstrap embedding. -/

/-- Characterization of the deployment after `mongo-init.js` has run:
the admin user sits in whatever database the shell started in, and
`telegram_cache` holds exactly the three bootstrap collections with the
one text index; every other database is untouched. -/
lemma runScript_dbs (env : String → Option String) (d n : String) :
    (runScript env d).dbs n =
      ⟨(if n = d then [adminUser] else []),
       (if n = "telegram_cache" then bootCollections else [])⟩ := by
  by_cases h1 : n = d <;> by_cases h2 : n = "telegram_cache"
  · have h3 : d = "telegram_cache" := h1.symm.trans h2
    simp [runScript, runStmts, mongoInitScript, execStmt, initialShell, updDb,
      addIndex, StrExpr.eval, emptyDatabase, adminUser, textIndex,
      bootCollections, h1, h2, h3]
  · have h3 : ¬ d = "telegram_cache" := fun hh => h2 (h1.trans hh)
    have h4 : ¬ "telegram_cache" = d := fun hh => h3 hh.symm
    simp [runScript, runStmts, mongoInitScript, execStmt, initialShell, updDb,
      addIndex, StrExpr.eval, emptyDatabase, adminUser, textIndex,
      bootCollections, h1, h2, h3, h4]
  · have h3 : ¬ d = "telegram_cache" := fun hh => h1 (h2.trans hh.symm)
    have h4 : ¬ "telegram_cache" = d := fun hh => h3 hh.symm
    simp [runScript, runStmts, mongoInitScript, execStmt, initialShell, updDb,
      addIndex, StrExpr.eval, emptyDatabase, adminUser, textIndex,
      bootCollections, h1, h2, h3, h4]
  · simp [runScript, runStmts, mongoInitScript, execStmt, initialShell, updDb,
      addIndex, StrExpr.eval, emptyDatabase, adminUser, textIndex,
      bootCollections, h1, h2]

/-- The script creates exactly one user, built from the hardcoded
literals, independently of the environment and of the initial
database. -/
lemma runScript_createdUsers (env : String → Option String) (d : String) :
    (runScript env d).createdUsers = [adminUser] := by
  simp [runScript, runStmts, mongoInitScript, execStmt, initialShell,
    StrExpr.eval, adminUser]

/-! Helper lemmas about the core model. -/

/-- If no stored Message carries `i`, the count for `i` is zero. -/
lemma countId_eq_zero_of_not_hasId (st : StoreState) (i : String)
    (h : st.hasId i = false) : st.countId i = 0 := by
  simp only [StoreState.hasId, List.any_eq_false, decide_eq_true_eq] at h
  simp only [StoreState.countId, List.countP_eq_zero, decide_eq_true_eq]
  exact h

/-- Mapping an id-preserving function over the messages leaves every
identifier count unchanged. -/
lemma countP_map_id_preserving (msgs : List Message) (f : Message → Message)
    (hf : ∀ m, (f m).id = m.id) (i : String) :
    (msgs.map f).countP (fun m => m.id = i) = msgs.countP (fun m => m.id = i) := by
  rw [List.countP_map]
  apply List.countP_congr
  intro a _
  simp [Function.comp, hf]

/-- One atomic step preserves the at-most-one-record-per-identifier
invariant. -/
lemma countId_le_one_applyOp (st : StoreState) (op : Op)
    (h : ∀ i, st.countId i ≤ 1) : ∀ i, ((applyOp st op).2).countId i ≤ 1 := by
  intro i
  cases op with
  | submitOp actor m =>
      by_cases hid : st.hasId m.id
      · simp [applyOp, submit, hid]
        exact h i
      · have h0 : st.countId m.id = 0 :=
          countId_eq_zero_of_not_hasId st m.id (by simpa using hid)
        by_cases hmi : m.id = i
        · subst hmi
          simp only [StoreState.countId] at h0 ⊢
          simp [applyOp, submit, hid, List.countP_append, List.countP_cons, h0]
        · have hi := h i
          simp only [StoreState.countId] at hi ⊢
          simp [applyOp, submit, hid, List.countP_append, List.countP_cons, hmi]
          exact hi
  | editOp actor j t =>
      by_cases hl : st.hasLive j
      · simpa [applyOp, hl, StoreState.countId,
          countP_map_id_preserving st.messages (applyEdit j t)
            (fun m => by simp [applyEdit]; split <;> simp) i] using h i
      · simpa [applyOp, hl] using h i
  | deleteOp actor j =>
      by_cases hl : st.hasLive j
      · simpa [applyOp, hl, StoreState.countId,
          countP_map_id_preserving st.messages (applyDelete j)
            (fun m => by simp [applyDelete]; split <;> simp) i] using h i
      · simpa [applyOp, hl] using h i

/-- A whole run of atomic steps preserves the invariant. -/
lemma countId_le_one_runOps (ops : List Op) (st : StoreState)
    (h : ∀ i, st.countId i ≤ 1) : ∀ i, (runOps st ops).countId i ≤ 1 := by
  induction ops generalizing st with
  | nil => exact h
  | cons o rest ih => exact ih _ (countId_le_one_applyOp st o h)

/-- One atomic step appends exactly one audit entry when accepted, and
changes nothing when rejected. -/
lemma audit_applyOp (st : StoreState) (op : Op) :
    ((applyOp st op).2).audit.length
        = st.audit.length + (if (applyOp st op).1 then 1 else 0) ∧
    ((applyOp st op).1 = false → (applyOp st op).2 = st) := by
  cases op with
  | submitOp actor m =>
      by_cases hid : st.hasId m.id <;> simp [applyOp, submit, hid]
  | editOp actor j t =>
      by_cases hl : st.hasLive j <;> simp [applyOp, hl]
  | deleteOp actor j =>
      by_cases hl : st.hasLive j <;> simp [applyOp, hl]

/-- Audit-log length along a run: one entry per accepted operation. -/
lemma audit_runOps (ops : List Op) (st : StoreState) :
    (runOps st ops).audit.length = st.audit.length + acceptedCount st ops := by
  induction ops generalizing st with
  | nil => simp [runOps, acceptedCount]
  | cons o rest ih =>
      have hstep := (audit_applyOp st o).1
      have : runOps st (o :: rest) = runOps (applyOp st o).2 rest := rfl
      rw [this, ih, hstep, acceptedCount]
      omega

/-! Claim theorems. -/

/-- C1: along every interleaving of submissions (and other mutating
operations) run against the store, each step being the atomic
insert-if-absent of the storage layer, at most one Message record is
ever stored per source identifier — in particular under concurrent or
repeated submissions of the same identifier. -/
theorem C1_at_most_one_record_per_identifier (ops : List Op) (i : String) :
    (runOps emptyStore ops).countId i ≤ 1 :=
  countId_le_one_runOps ops emptyStore
    (fun j => by simp [emptyStore, StoreState.countId]) i

/-- C2: after the bootstrap, the `messages` collection of
`telegram_cache` carries exactly one created index — the combined text
index on the fields `text` and `caption` — and no other collection of
any database carries any created index, whatever the environment and
initial database. -/
theorem C2_text_index_is_the_only_index (env : String → Option String)
    (d n : String) (c : Collection)
    (hc : c ∈ collectionsOf (runScript env d) n) :
    c.indexes =
      if n = "telegram_cache" ∧ c.name = "messages" then
        [⟨[("text", IndexKind.text), ("caption", IndexKind.text)], false⟩]
      else [] := by
  simp only [collectionsOf, runScript_dbs] at hc
  by_cases h2 : n = "telegram_cache"
  · simp only [h2, if_pos, bootCollections, textIndex] at hc
    simp only [List.mem_cons, List.mem_singleton, List.not_mem_nil, or_false] at hc
    rcases hc with rfl | rfl | rfl <;> simp [h2, textIndex]
  · simp [h2] at hc

/-- Witness for C2 at a concrete environment and initial database. -/
theorem C2_text_index_is_the_only_index_witness :
    (⟨"messages",
       [⟨[("text", IndexKind.text), ("caption", IndexKind.text)], false⟩],
       none⟩ : Collection)
      ∈ collectionsOf (runScript (fun _ => none) "admin") "telegram_cache" ∧
    (⟨"messages",
       [⟨[("text", IndexKind.text), ("caption", IndexKind.text)], false⟩],
       none⟩ : Collection).indexes =
      [⟨[("text", IndexKind.text), ("caption", IndexKind.text)], false⟩] :=
  ⟨by decide,
   C2_text_index_is_the_only_index (fun _ => none) "admin" "telegram_cache"
     ⟨"messages",
      [⟨[("text", IndexKind.text), ("caption", IndexKind.text)], false⟩],
      none⟩ (by decide)⟩

/-- C3: the bootstrap creates exactly the collections `messages`,
`events` and `audit_log`, in this order, in the database
`telegram_cache`, and no collection in any other database. -/
theorem C3_exactly_three_collections (env : String → Option String)
    (d : String) :
    collectionNamesOf (runScript env d) "telegram_cache" =
        ["messages", "events", "audit_log"] ∧
    ∀ n, n ≠ "telegram_cache" → collectionsOf (runScript env d) n = [] := by
  constructor
  · simp [collectionNamesOf, collectionsOf, runScript_dbs, bootCollections]
  · intro n hn
    simp [collectionsOf, runScript_dbs, hn]

/-- Witness for C3 at a concrete environment, initial database and
other database name. -/
theorem C3_exactly_three_collections_witness :
    collectionNamesOf (runScript (fun _ => none) "admin") "telegram_cache" =
        ["messages", "events", "audit_log"] ∧
    collectionsOf (runScript (fun _ => none) "admin") "other_db" = [] :=
  ⟨(C3_exactly_three_collections (fun _ => none) "admin").1,
   (C3_exactly_three_collections (fun _ => none) "admin").2 "other_db"
     (by decide)⟩

/-- C4: the one access principal the bootstrap creates is granted
exactly the two roles `readWrite` and `dbAdmin`, both scoped to the
database `telegram_cache`; it sits in the database the shell started
in, and no other database holds any user. -/
theorem C4_principal_has_exactly_two_roles (env : String → Option String)
    (d n : String) :
    usersOf (runScript env d) n =
      if n = d then
        [⟨"admin", "password",
          [⟨"readWrite", "telegram_cache"⟩, ⟨"dbAdmin", "telegram_cache"⟩]⟩]
      else [] := by
  simp [usersOf, runScript_dbs, adminUser]

/-- C5: re-submitting an identifier that is already stored is rejected
by the Dedup Gate and leaves the whole store state — the `messages`
collection and the audit log — exactly unchanged. -/
theorem C5_resubmission_is_noop (actor : String) (st : StoreState)
    (m : Message) (h : st.hasId m.id = true) :
    submit actor st m = (.reject m.id, st) := by
  simp [submit, h]

/-- Witness for C5: the spec's §8 scenario — after `e1` is accepted,
submitting `e1` again changes nothing. -/
theorem C5_resubmission_is_noop_witness :
    ((submit "ingest" emptyStore e1Message).2).hasId "e1" = true ∧
    submit "ingest" ((submit "ingest" emptyStore e1Message).2) e1Message =
      (.reject "e1", (submit "ingest" emptyStore e1Message).2) :=
  ⟨by decide,
   C5_resubmission_is_noop "ingest" ((submit "ingest" emptyStore e1Message).2)
     e1Message (by decide)⟩

/-- C6: every accepted mutating operation appends exactly one audit
entry in the same atomic step, a rejected operation changes nothing at
all, and consequently along any run the audit log grows by exactly one
entry per accepted mutation (count equality), so no reachable state
holds a mutation without its audit entry. -/
theorem C6_mutation_and_audit_atomic (st : StoreState) (op : Op)
    (ops : List Op) :
    ((applyOp st op).1 = true →
        ((applyOp st op).2).audit.length = st.audit.length + 1) ∧
    ((applyOp st op).1 = false → (applyOp st op).2 = st) ∧
    (runOps st ops).audit.length = st.audit.length + acceptedCount st ops := by
  refine ⟨fun h => ?_, (audit_applyOp st op).2, audit_runOps ops st⟩
  have hstep := (audit_applyOp st op).1
  rw [h] at hstep
  simpa using hstep

/-- Witness for C6: accepting the spec's `e1` submission lands exactly
one audit entry with it. -/
theorem C6_mutation_and_audit_atomic_witness :
    (applyOp emptyStore (.submitOp "ingest" e1Message)).1 = true ∧
    ((applyOp emptyStore (.submitOp "ingest" e1Message)).2).audit.length =
      emptyStore.audit.length + 1 :=
  ⟨by decide,
   (C6_mutation_and_audit_atomic emptyStore (.submitOp "ingest" e1Message)
     []).1 (by decide)⟩

/-- C7: the container build file installs a compiled dependency
toolchain (gcc) and a managed package set (pip over requirements.txt),
sets the unbuffered-output variable PYTHONUNBUFFERED and the
import-path variable PYTHONPATH, and has exactly one entry-point
command, which launches `main.py`. -/
theorem C7_container_build_file :
    DockerInstr.runCmd
        "apt-get update && apt-get install -y gcc && rm -rf /var/lib/apt/lists/*"
      ∈ dockerfile ∧
    DockerInstr.runCmd "pip install --no-cache-dir -r requirements.txt"
      ∈ dockerfile ∧
    DockerInstr.envVar "PYTHONUNBUFFERED" "1" ∈ dockerfile ∧
    DockerInstr.envVar "PYTHONPATH" "/app" ∈ dockerfile ∧
    dockerfile.filterMap DockerInstr.cmdArgs = [["python", "main.py"]] := by
  refine ⟨?_, ?_, ?_, ?_, ?_⟩ <;> decide

/-- C8: the created credentials are the hardcoded constants `admin` /
`password`: any two runs of the script, under any environments and any
initial databases, create the same single principal with the same
password. -/
theorem C8_credentials_hardcoded (env1 env2 : String → Option String)
    (d1 d2 : String) :
    (runScript env1 d1).createdUsers = (runScript env2 d2).createdUsers ∧
    (runScript env1 d1).createdUsers =
      [⟨"admin", "password",
        [⟨"readWrite", "telegram_cache"⟩, ⟨"dbAdmin", "telegram_cache"⟩]⟩] := by
  rw [runScript_createdUsers, runScript_createdUsers]
  exact ⟨rfl, rfl⟩

/-- C9: the `createUser` statement comes strictly before the
`getSiblingDB` switch in the script, so the principal is defined in
whatever database the shell started in — and only there — while both
of its roles target `telegram_cache`. -/
theorem C9_user_created_before_switch (env : String → Option String)
    (d : String) :
    List.findIdx Stmt.isCreateUser mongoInitScript <
        List.findIdx Stmt.isUseSiblingDB mongoInitScript ∧
    (∀ n, usersOf (runScript env d) n ≠ [] ↔ n = d) ∧
    (∀ n, ∀ u ∈ usersOf (runScript env d) n, ∀ r ∈ u.roles,
        r.db = "telegram_cache") := by
  refine ⟨by decide, fun n => ?_, fun n u hu r hr => ?_⟩
  · by_cases h1 : n = d <;> simp [usersOf, runScript_dbs, h1]
  · simp only [usersOf, runScript_dbs] at hu
    by_cases h1 : n = d
    · simp only [h1, if_pos] at hu
      simp only [List.mem_singleton] at hu
      subst hu
      simp [adminUser] at hr
      rcases hr with rfl | rfl <;> rfl
    · simp [h1] at hu

/-- Witness for C9 at a concrete environment and initial database. -/
theorem C9_user_created_before_switch_witness :
    adminUser ∈ usersOf (runScript (fun _ => none) "admin") "admin" ∧
    (⟨"readWrite", "telegram_cache"⟩ : Role) ∈ adminUser.roles ∧
    (⟨"readWrite", "telegram_cache"⟩ : Role).db = "telegram_cache" :=
  ⟨by decide, by decide,
   (C9_user_created_before_switch (fun _ => none) "admin").2.2 "admin"
     adminUser (by decide) ⟨"readWrite", "telegram_cache"⟩ (by decide)⟩

/-- C10: after the bootstrap, no collection of any database carries a
validator, a unique index, or any index keyed on the field `id` — in
particular `messages.id` has no unique index and `audit_log` has no
constraint at all — so the spec's application-level invariants get no
storage-level backing from this script. -/
theorem C10_no_storage_level_constraints (env : String → Option String)
    (d n : String) (c : Collection)
    (hc : c ∈ collectionsOf (runScript env d) n) :
    c.validator = none ∧
    ∀ idx ∈ c.indexes, idx.unique = false ∧
      "id" ∉ idx.keys.map Prod.fst := by
  simp only [collectionsOf, runScript_dbs] at hc
  by_cases h2 : n = "telegram_cache"
  · simp only [h2, if_pos, bootCollections, textIndex] at hc
    simp only [List.mem_cons, List.mem_singleton, List.not_mem_nil, or_false] at hc
    rcases hc with rfl | rfl | rfl <;>
      refine ⟨rfl, fun idx hidx => ?_⟩ <;> simp at hidx
    subst hidx
    decide
  · simp [h2] at hc

/-- Witness for C10: the `audit_log` collection concretely carries no
constraint. -/
theorem C10_no_storage_level_constraints_witness :
    (⟨"audit_log", [], none⟩ : Collection)
      ∈ collectionsOf (runScript (fun _ => none) "admin") "telegram_cache" ∧
    (⟨"audit_log", [], none⟩ : Collection).validator = none :=
  ⟨by decide,
   (C10_no_storage_level_constraints (fun _ => none) "admin" "telegram_cache"
     ⟨"audit_log", [], none⟩ (by decide)).1⟩

end Bots
